import Mathlib

/-!
Verification of the moving-cost estimator server core.

The TypeScript sources (src/server/routes.ts, src/server/storage.ts,
src/shared/schema.ts, src/client/src/lib constants) are shallowly embedded:

* JavaScript strings are modelled as List Char; the handful of string
  operations the code uses (toLowerCase, split on a comma, trim,
  substring containment) are given executable ASCII-faithful definitions.
* JavaScript numbers are modelled as Nat / Int / Rat where the code only
  ever produces exact dyadic or decimal values, and as Real for the
  Haversine geometry; Math.round x is floor (x + 1/2) and
  Math.floor (a / b) on integers is Int.fdiv.
* Math.random draws are modelled by an oracle rand : Nat -> Nat, where
  rand n stands for Math.floor (Math.random () * n) and is assumed to be
  below n; company availability draws are an oracle avail : Nat -> Bool.
* The in-memory storage maps (JavaScript Map, insertion ordered, set
  replaces an existing key in place) are modelled as lists with an
  explicit key-respecting set operation.
-/

/-! ### JavaScript string primitives (ASCII fragment) -/

/-- Lower-casing of one character, as String.prototype.toLowerCase acts on
the ASCII range: the letters A-Z move down by 32, everything else is kept. -/
def jsToLowerChar (c : Char) : Char :=
  if 'A' ≤ c ∧ c ≤ 'Z' then Char.ofNat (c.toNat + 32) else c

/-- Whitespace test used by String.prototype.trim (ASCII fragment). -/
def jsIsSpace (c : Char) : Bool :=
  c = ' ' ∨ c = '\t' ∨ c = '\n' ∨ c = '\r'

/-- String.prototype.trim: drop whitespace from both ends. -/
def jsTrim (s : List Char) : List Char :=
  ((s.dropWhile jsIsSpace).reverse.dropWhile jsIsSpace).reverse

/-- String.prototype.split with a one-character separator: splitting the
empty string gives one empty part, separators at the ends give empty parts,
exactly as in JavaScript. -/
def jsSplit (sep : Char) : List Char → List (List Char)
  | [] => [[]]
  | c :: cs =>
    match jsSplit sep cs with
    | [] => [[c]]
    | p :: ps => if c = sep then [] :: p :: ps else (c :: p) :: ps

/-- Substring check: prefix test, the helper of jsIncludes. -/
def jsStartsWith : List Char → List Char → Bool
  | [], _ => true
  | _ :: _, [] => false
  | a :: as, b :: bs => a = b && jsStartsWith as bs

/-- String.prototype.includes: the needle occurs contiguously in the hay. -/
def jsIncludes (hay needle : List Char) : Bool :=
  match hay with
  | [] => jsStartsWith needle []
  | _ :: rest => jsStartsWith needle hay || jsIncludes rest needle

/-! ### Distance heuristic (routes.ts, calculateDistance, lines 512-543) -/

/-- Parts of an address: lower-case the whole string, split on commas, trim
each part (routes.ts lines 517-522). -/
def addressParts (s : List Char) : List (List Char) :=
  (jsSplit ',' (s.map jsToLowerChar)).map jsTrim

/-- Shared city/locality check (routes.ts line 525):
originParts.some (part => destParts.includes (part)). -/
def sameCityB (origin destination : List Char) : Bool :=
  (addressParts origin).any (fun part => (addressParts destination).contains part)

/-- State extraction (routes.ts lines 532-533): the last part when the
address has more than one part, the empty string otherwise. -/
def lastState (s : List Char) : List Char :=
  if (addressParts s).length > 1 then (addressParts s).getLastD [] else []

/-- Embedding of calculateDistance (routes.ts lines 512-543). The oracle
rand n stands for Math.floor (Math.random () * n). -/
def calculateDistance (rand : ℕ → ℕ) (origin destination : List Char) : ℕ :=
  if sameCityB origin destination then
    rand 20 + 5
  else
    if lastState origin = lastState destination ∧ lastState origin ≠ [] then
      rand 175 + 25
    else
      rand 2800 + 200

/-! ### Cost model (routes.ts calculateMovingCosts, calculateServicesCost;
constants from src/client/src/lib) -/

/-- JavaScript Math.round: round half toward positive infinity. The cost
pipeline only ever rounds exact dyadic or decimal values, so the float
arithmetic of the source is idealized as exact rational arithmetic. -/
def jsRound (q : ℚ) : ℤ := ⌊q + 1 / 2⌋

/-- Home size enumeration of moveCalculationRequestSchema (schema.ts). -/
inductive HomeSize where
  | studio
  | oneBedroom
  | twoBedroom
  | threeBedroom
deriving DecidableEq

/-- Additional-items enumeration of moveCalculationRequestSchema. -/
inductive AdditionalItems where
  | none
  | piano
  | artwork
  | gym
  | multiple
deriving DecidableEq

/-- Flexibility enumeration of moveCalculationRequestSchema. -/
inductive Flexibility where
  | exact
  | oneTwoDays
  | oneWeek
  | flexible
deriving DecidableEq

/-- Services enumeration of moveCalculationRequestSchema. The zod schema is
an array of this enumeration, so order and multiplicity are whatever the
client sent. -/
inductive Service where
  | packing
  | storage
  | cleaning
deriving DecidableEq

/-- Per-tier dollar amounts. -/
structure Tier where
  diy : ℤ
  hybrid : ℤ
  fullService : ℤ
deriving DecidableEq

/-- BASE_COSTS table (useAddressAutocomplete.ts lines 90-95). -/
def BASE_COSTS : HomeSize → Tier
  | .studio => ⟨150, 500, 900⟩
  | .oneBedroom => ⟨200, 650, 1200⟩
  | .twoBedroom => ⟨250, 800, 1500⟩
  | .threeBedroom => ⟨300, 950, 1800⟩

/-- Per-mile rates, exact rationals (useAddressAutocomplete.ts line 98). -/
structure TierRate where
  diy : ℚ
  hybrid : ℚ
  fullService : ℚ

/-- COST_PER_MILE constant: diy 0.5, hybrid 1.5, fullService 2.5. -/
def COST_PER_MILE : TierRate := ⟨1 / 2, 3 / 2, 5 / 2⟩

/-- ADDITIONAL_ITEM_COSTS table (useAddressAutocomplete.ts lines 101-107). -/
def ADDITIONAL_ITEM_COSTS : AdditionalItems → Tier
  | .none => ⟨0, 0, 0⟩
  | .piano => ⟨100, 200, 300⟩
  | .artwork => ⟨50, 100, 200⟩
  | .gym => ⟨75, 150, 250⟩
  | .multiple => ⟨150, 300, 400⟩

/-- Validated calculation request (moveCalculationRequestSchema). -/
structure MoveRequest where
  origin : List Char
  destination : List Char
  homeSize : HomeSize
  additionalItems : AdditionalItems
  moveDate : List Char
  flexibility : Flexibility
  services : List Service

/-- Cost breakdown of the response. -/
structure Breakdown where
  transportation : ℤ
  labor : ℤ
  materials : ℤ
  other : ℤ
deriving DecidableEq

/-- Moving company catalog entry. -/
structure Company where
  name : List Char
  rating : ℚ
  description : List Char
  available : Bool

/-- SAMPLE_COMPANIES catalog (useAddressAutocomplete.ts lines 109-134). -/
def SAMPLE_COMPANIES : List Company :=
  [⟨"FastMove Pros".data, 48 / 10, "Local company with 15+ years experience".data, true⟩,
   ⟨"SmartBox Moving".data, 46 / 10, "Container-based moving service".data, true⟩,
   ⟨"Premium Movers Inc.".data, 49 / 10, "Full-service moving specialists".data, false⟩,
   ⟨"Budget Moving Co.".data, 44 / 10, "Affordable moving solutions".data, true⟩]

/-- Calculation response (moveCalculationResponseSchema shape). -/
structure MoveResponse where
  distance : ℕ
  origin : List Char
  destination : List Char
  homeSize : HomeSize
  moveDate : List Char
  costs : Tier
  breakdown : Breakdown
  companies : List Company

/-- Per-service surcharge of the switch in calculateServicesCost
(routes.ts lines 550-566). -/
def serviceTier : Service → Tier
  | .packing => ⟨100, 200, 0⟩
  | .storage => ⟨150, 150, 150⟩
  | .cleaning => ⟨200, 200, 200⟩

/-- Embedding of calculateServicesCost (routes.ts lines 546-570): a forEach
over the services array accumulating the per-service surcharges, one
addition per occurrence. -/
def calculateServicesCost (services : List Service) : Tier :=
  services.foldl
    (fun costs service =>
      ⟨costs.diy + (serviceTier service).diy,
       costs.hybrid + (serviceTier service).hybrid,
       costs.fullService + (serviceTier service).fullService⟩)
    ⟨0, 0, 0⟩

/-- Embedding of calculateMovingCosts (routes.ts lines 453-509). The rand
oracle feeds calculateDistance; the avail oracle gives the per-company
Math.random () > 0.3 draws. -/
def calculateMovingCosts (rand : ℕ → ℕ) (avail : ℕ → Bool)
    (data : MoveRequest) : MoveResponse :=
  let distance := calculateDistance rand data.origin data.destination
  let baseCosts := BASE_COSTS data.homeSize
  let costDiy := jsRound ((baseCosts.diy : ℚ) + (distance : ℚ) * COST_PER_MILE.diy)
  let costHybrid := jsRound ((baseCosts.hybrid : ℚ) + (distance : ℚ) * COST_PER_MILE.hybrid)
  let costFullService :=
    jsRound ((baseCosts.fullService : ℚ) + (distance : ℚ) * COST_PER_MILE.fullService)
  let additionalCosts := ADDITIONAL_ITEM_COSTS data.additionalItems
  let diy := costDiy + additionalCosts.diy
  let hybrid := costHybrid + additionalCosts.hybrid
  let fullService := costFullService + additionalCosts.fullService
  let servicesCost := calculateServicesCost data.services
  let totalCost := hybrid
  let transportationCost := jsRound ((totalCost : ℚ) * (45 / 100))
  let laborCost := jsRound ((totalCost : ℚ) * (30 / 100))
  let materialsCost := jsRound ((totalCost : ℚ) * (15 / 100))
  let otherCost := jsRound ((totalCost : ℚ) * (10 / 100))
  let companies := SAMPLE_COMPANIES.mapIdx (fun i c => { c with available := avail i })
  { distance := distance
    origin := data.origin
    destination := data.destination
    homeSize := data.homeSize
    moveDate := data.moveDate
    costs :=
      ⟨diy + servicesCost.diy, hybrid + servicesCost.hybrid,
       fullService + servicesCost.fullService⟩
    breakdown := ⟨transportationCost, laborCost, materialsCost, otherCost⟩
    companies := companies.take 2 }

/-! ### Checklist data model (schema.ts) and storage (storage.ts MemStorage) -/

/-- Stored checklist item row (checklistItems table, schema.ts 128-137). -/
structure ChecklistItemR where
  id : ℕ
  checklistId : ℕ
  task : List Char
  description : Option (List Char)
  category : List Char
  timeframe : List Char
  completed : Bool
  createdAt : List Char
deriving DecidableEq

/-- Stored moving estimate row (movingEstimates table, schema.ts 24-39). -/
structure MoveEstimateR where
  id : ℕ
  userId : Option ℕ
  origin : List Char
  destination : List Char
  distance : ℤ
  homeSize : List Char
  additionalItems : Option (List Char)
  moveDate : List Char
  flexibility : Option (List Char)
  services : List (List Char)
  costDiy : ℤ
  costHybrid : ℤ
  costFullService : ℤ
  createdAt : List Char
deriving DecidableEq

/-- Stored moving checklist row (movingChecklists table, schema.ts 116-122). -/
structure MoveChecklistR where
  id : ℕ
  userId : ℕ
  estimateId : Option ℕ
  moveDate : List Char
  createdAt : List Char
deriving DecidableEq

/-- The values of one JavaScript Map in insertion order. Map.set replaces
the entry holding the same key in place when one exists and appends
otherwise; every stored record carries its own key. -/
def mapSetBy {α : Type} (key : α → ℕ) (l : List α) (a : α) : List α :=
  if l.any (fun x => key x = key a) then
    l.map (fun x => if key x = key a then a else x)
  else
    l ++ [a]

/-- Embedding of MemStorage.updateChecklistItem (storage.ts lines 174-184):
look the item up by id; when absent return undefined and leave the map
alone; otherwise store and return the item with completed replaced. -/
def updateChecklistItem (items : List ChecklistItemR) (id : ℕ)
    (completed : Bool) : Option ChecklistItemR × List ChecklistItemR :=
  match items.find? (fun i => i.id = id) with
  | none => (none, items)
  | some item =>
    let updatedItem : ChecklistItemR := { item with completed := completed }
    (some updatedItem, mapSetBy (fun i => i.id) items updatedItem)

/-- Server state relevant to the estimate and checklist routes: the three
MemStorage maps, as value lists in insertion order. -/
structure AppState where
  estimates : List MoveEstimateR
  checklists : List MoveChecklistR
  items : List ChecklistItemR
deriving DecidableEq

/-- MemStorage.getAllMoveEstimates (storage.ts 110-112): every stored
estimate, no owner filter. -/
def getAllMoveEstimates (st : AppState) : List MoveEstimateR :=
  st.estimates

/-- MemStorage.getUserEstimates (storage.ts 114-117): the estimates whose
userId strictly equals the given user id. -/
def getUserEstimates (st : AppState) (userId : ℕ) : List MoveEstimateR :=
  st.estimates.filter (fun e => e.userId = some userId)

/-- Route outcome: the status families the handlers produce. -/
inductive Reply (α : Type) where
  | ok (body : α)
  | unauthenticated
  | badRequest
  | forbidden
  | notFound
deriving DecidableEq

/-- GET /api/moving-estimates (routes.ts lines 62-70). The handler performs
no authentication check and no owner filter: it answers every caller with
every stored estimate. The auth argument is the session state of the
request, which the handler never consults. -/
def apiMovingEstimates (auth : Option ℕ) (st : AppState) :
    Reply (List MoveEstimateR) :=
  Reply.ok (getAllMoveEstimates st)

/-- GET /api/my-estimates (routes.ts lines 73-87): requires authentication,
then lists the estimates owned by the caller. -/
def apiMyEstimates (auth : Option ℕ) (st : AppState) :
    Reply (List MoveEstimateR) :=
  match auth with
  | none => Reply.unauthenticated
  | some userId => Reply.ok (getUserEstimates st userId)

/-- PATCH /api/checklist-items/:id (routes.ts lines 255-279): requires
authentication, requires a boolean completed in the body (modelled as
Option Bool, none for a non-boolean), then updates the item by id. The
handler never looks up the checklist owning the item, so the caller id is
not compared with any owner. -/
def apiPatchChecklistItem (auth : Option ℕ) (itemId : ℕ)
    (completed : Option Bool) (st : AppState) :
    Reply ChecklistItemR × AppState :=
  match auth with
  | none => (Reply.unauthenticated, st)
  | some _ =>
    match completed with
    | none => (Reply.badRequest, st)
    | some b =>
      match updateChecklistItem st.items itemId b with
      | (none, _) => (Reply.notFound, st)
      | (some updatedItem, items) => (Reply.ok updatedItem, { st with items := items })

/-! ### Checklist template engine
(routes.ts generateDefaultChecklistItems, lines 695-875) -/

/-- Item shape handed to storage.createChecklistItem by the generator. -/
structure InsertChecklistItem where
  checklistId : ℕ
  task : List Char
  description : List Char
  category : List Char
  timeframe : List Char
  completed : Bool
deriving DecidableEq

/-- Embedding of generateDefaultChecklistItems (routes.ts lines 695-875):
the fixed 18-entry catalog. The source first derives five Date values from
moveDate (eight, four, two and one weeks before, one week after) but never
attaches them to any item — dead computation per spec section 4.2 — so only
the moveDate parameter itself is kept here, unused like those dates. -/
def generateDefaultChecklistItems (checklistId : ℕ) (moveDate : List Char) :
    List InsertChecklistItem :=
  [{ checklistId := checklistId,
     task := "Create a moving budget".data,
     description := "Estimate all costs involved in your move including packing supplies, movers, transportation, etc.".data,
     category := "planning".data, timeframe := "8-weeks".data, completed := false },
   { checklistId := checklistId,
     task := "Research moving companies".data,
     description := "Get quotes from at least 3 different moving companies for comparison.".data,
     category := "planning".data, timeframe := "8-weeks".data, completed := false },
   { checklistId := checklistId,
     task := "Create a home inventory".data,
     description := "Document all your belongings and decide what to keep, sell, donate, or discard.".data,
     category := "planning".data, timeframe := "8-weeks".data, completed := false },
   { checklistId := checklistId,
     task := "Start packing non-essential items".data,
     description := "Begin with items you rarely use like seasonal decorations, books, and extra kitchen items.".data,
     category := "packing".data, timeframe := "4-weeks".data, completed := false },
   { checklistId := checklistId,
     task := "Notify important parties about your move".data,
     description := "Update your address with banks, insurance companies, subscription services, etc.".data,
     category := "admin".data, timeframe := "4-weeks".data, completed := false },
   { checklistId := checklistId,
     task := "Schedule utility disconnection and connection".data,
     description := "Arrange for utilities to be disconnected at your current home and connected at your new home.".data,
     category := "admin".data, timeframe := "4-weeks".data, completed := false },
   { checklistId := checklistId,
     task := "Confirm moving arrangements".data,
     description := "Verify date, time, and details with your moving company or rental truck service.".data,
     category := "admin".data, timeframe := "2-weeks".data, completed := false },
   { checklistId := checklistId,
     task := "Pack most of your belongings".data,
     description := "Leave out only essential items that you\x27ll need in the final days.".data,
     category := "packing".data, timeframe := "2-weeks".data, completed := false },
   { checklistId := checklistId,
     task := "Clean out the refrigerator and pantry".data,
     description := "Use up perishable food items or plan to give them away before the move.".data,
     category := "cleaning".data, timeframe := "2-weeks".data, completed := false },
   { checklistId := checklistId,
     task := "Pack an essentials box".data,
     description := "Include items you\x27ll need immediately upon arrival: toiletries, medications, change of clothes, basic kitchen supplies, etc.".data,
     category := "packing".data, timeframe := "1-week".data, completed := false },
   { checklistId := checklistId,
     task := "Disassemble furniture".data,
     description := "Take apart larger furniture pieces that won\x27t fit through doors or are easier to move disassembled.".data,
     category := "packing".data, timeframe := "1-week".data, completed := false },
   { checklistId := checklistId,
     task := "Confirm arrival time at new residence".data,
     description := "Make sure you can access your new home when you arrive and that utilities are connected.".data,
     category := "admin".data, timeframe := "1-week".data, completed := false },
   { checklistId := checklistId,
     task := "Conduct final walkthrough of old home".data,
     description := "Check all rooms, closets, cabinets, and storage areas to ensure nothing is left behind.".data,
     category := "moving-day".data, timeframe := "moving-day".data, completed := false },
   { checklistId := checklistId,
     task := "Document condition of rental property".data,
     description := "Take photos of your cleaned rental property to document its condition for your deposit return.".data,
     category := "moving-day".data, timeframe := "moving-day".data, completed := false },
   { checklistId := checklistId,
     task := "Supervise movers".data,
     description := "Be available to answer questions and direct movers throughout the loading process.".data,
     category := "moving-day".data, timeframe := "moving-day".data, completed := false },
   { checklistId := checklistId,
     task := "Unpack essential items".data,
     description := "Focus on setting up the kitchen, bathroom, and bedroom areas first.".data,
     category := "unpacking".data, timeframe := "after-move".data, completed := false },
   { checklistId := checklistId,
     task := "Update your address".data,
     description := "File a change of address with the post office and update your driver\x27s license.".data,
     category := "admin".data, timeframe := "after-move".data, completed := false },
   { checklistId := checklistId,
     task := "Meet your neighbors".data,
     description := "Introduce yourself to neighbors and begin getting familiar with the neighborhood.".data,
     category := "settling-in".data, timeframe := "after-move".data, completed := false }]

/-- The six timeframe labels of the schema (schema.ts line 134). -/
def sixTimeframes : List (List Char) :=
  ["8-weeks".data, "4-weeks".data, "2-weeks".data,
   "1-week".data, "moving-day".data, "after-move".data]

/-! ### Concrete fixtures used by closed evaluations -/

/-- Fixture: a stored checklist item, as created by the template engine for
checklist 1 and then persisted with id 1. -/
def exChecklistItem : ChecklistItemR :=
  { id := 1, checklistId := 1, task := "Create a moving budget".data,
    description := none, category := "planning".data,
    timeframe := "8-weeks".data, completed := false,
    createdAt := "2025-01-01T00:00:00.000Z".data }

/-- Fixture: a stored estimate owned by user 1. -/
def exEstimate : MoveEstimateR :=
  { id := 1, userId := some 1,
    origin := "123 Main St, New York, NY".data,
    destination := "456 Oak Ave, New York, NY".data,
    distance := 5, homeSize := "2bedroom".data, additionalItems := none,
    moveDate := "2025-06-01".data, flexibility := none, services := [],
    costDiy := 253, costHybrid := 808, costFullService := 1513,
    createdAt := "2025-01-01T00:00:00.000Z".data }

/-- Fixture: a stored checklist owned by user 1, holding the fixture item. -/
def exChecklist : MoveChecklistR :=
  { id := 1, userId := 1, estimateId := none,
    moveDate := "2025-06-01".data, createdAt := "2025-01-01T00:00:00.000Z".data }

/-- Fixture server state: one estimate, one checklist and one item, all
owned by user 1. -/
def exAppState : AppState :=
  { estimates := [exEstimate], checklists := [exChecklist],
    items := [exChecklistItem] }

/-! ### User progress storage (src/unnamed part_002 MemStorage) and the
unlock-achievement route (routes.ts lines 381-446) -/

/-- Stored user progress row (userProgress table, schema.ts 175-184). -/
structure UserProgressR where
  id : ℕ
  userId : ℕ
  points : ℤ
  level : ℤ
  achievements : List (List Char)
  streak : ℤ
  lastInteraction : List Char
  createdAt : List Char
deriving DecidableEq

/-- Insert shape for user progress: userId required, the rest optional
(insertUserProgressSchema; the table columns carry defaults). -/
structure InsertUserProgress where
  userId : ℕ
  points : Option ℤ
  level : Option ℤ
  achievements : Option (List (List Char))
  streak : Option ℤ
  lastInteraction : Option (List Char)

/-- Partial insert shape handed to updateUserProgress: every field is
optional, absent fields leave the stored value alone. -/
structure ProgressPatch where
  userId : Option ℕ
  points : Option ℤ
  level : Option ℤ
  achievements : Option (List (List Char))
  streak : Option ℤ
  lastInteraction : Option (List Char)

/-- The user progress map and its id counter. -/
structure ProgressState where
  currentProgressId : ℕ
  userProgressMap : List UserProgressR
deriving DecidableEq

/-- MemStorage.getUserProgress: first stored record with the given owner. -/
def getUserProgress (st : ProgressState) (userId : ℕ) : Option UserProgressR :=
  st.userProgressMap.find? (fun p => p.userId = userId)

/-- MemStorage.createUserProgress: fresh id, defaults for absent fields
(points 0, level 1, streak 0, empty achievements, lastInteraction now; an
empty string is falsy in JavaScript, so it also falls back to now). -/
def createUserProgress (st : ProgressState) (ip : InsertUserProgress)
    (now : List Char) : UserProgressR × ProgressState :=
  let id := st.currentProgressId
  let progress : UserProgressR :=
    { id := id, userId := ip.userId,
      points := ip.points.getD 0,
      level := ip.level.getD 1,
      streak := ip.streak.getD 0,
      lastInteraction :=
        match ip.lastInteraction with
        | none => now
        | some s => if s = [] then now else s,
      achievements := ip.achievements.getD [],
      createdAt := now }
  (progress,
   { currentProgressId := id + 1,
     userProgressMap := mapSetBy (fun p => p.id) st.userProgressMap progress })

/-- MemStorage.updateUserProgress: find the record by owner, shallow-merge
the patch over it (achievements kept when the patch omits them), store the
merge under the same id. -/
def updateUserProgress (st : ProgressState) (userId : ℕ)
    (patch : ProgressPatch) : Option UserProgressR × ProgressState :=
  match st.userProgressMap.find? (fun p => p.userId = userId) with
  | none => (none, st)
  | some progress =>
    let updatedProgress : UserProgressR :=
      { id := progress.id,
        userId := patch.userId.getD progress.userId,
        points := patch.points.getD progress.points,
        level := patch.level.getD progress.level,
        streak := patch.streak.getD progress.streak,
        lastInteraction := patch.lastInteraction.getD progress.lastInteraction,
        achievements := patch.achievements.getD progress.achievements,
        createdAt := progress.createdAt }
    (some updatedProgress,
     { st with userProgressMap :=
         mapSetBy (fun p => p.id) st.userProgressMap updatedProgress })

/-- Outcome of the unlock-achievement handler. -/
inductive UnlockResult where
  | badRequest
  | alreadyUnlocked (progress : UserProgressR)
  | unlocked (progress : UserProgressR)
  | updateFailed
deriving DecidableEq

/-- Embedding of POST /api/unlock-achievement (routes.ts lines 381-446)
for an authenticated caller. The empty achievement id models the falsy
body check; points is the caller-supplied award, Option Int because the
body field may be absent (and a 0 behaves like an absent one under the
JavaScript points-or-zero coercion). Math.floor of the division by 100 is
Int.fdiv. -/
def unlockAchievement (st : ProgressState) (userId : ℕ)
    (achievementId : List Char) (points : Option ℤ) (now : List Char) :
    UnlockResult × ProgressState :=
  if achievementId = [] then (UnlockResult.badRequest, st)
  else
    match getUserProgress st userId with
    | none =>
      let created := createUserProgress st
        { userId := userId, points := some (points.getD 0), level := some 1,
          achievements := some [achievementId], streak := some 0,
          lastInteraction := some now } now
      (UnlockResult.unlocked created.1, created.2)
    | some progress =>
      if progress.achievements.contains achievementId then
        (UnlockResult.alreadyUnlocked progress, st)
      else
        let updatedAchievements := progress.achievements ++ [achievementId]
        let updatedPoints := progress.points + points.getD 0
        let updatedLevel := Int.fdiv updatedPoints 100 + 1
        match updateUserProgress st userId
          { userId := none, points := some updatedPoints,
            level := some updatedLevel, achievements := some updatedAchievements,
            streak := none, lastInteraction := some now } with
        | (none, stAfter) => (UnlockResult.updateFailed, stAfter)
        | (some p, stAfter) => (UnlockResult.unlocked p, stAfter)

/-- Fixture: a validated calculation request with two services. -/
def exRequest : MoveRequest :=
  { origin := "123 Main St, New York, NY".data,
    destination := "456 Oak Ave, New York, NY".data,
    homeSize := .twoBedroom, additionalItems := .none,
    moveDate := "2025-06-01".data, flexibility := .exact,
    services := [.packing, .storage] }

/-- Fixture: a progress record of user 7 holding one achievement. -/
def exProgress : UserProgressR :=
  { id := 1, userId := 7, points := 15, level := 1,
    achievements := ["first_estimate".data], streak := 0,
    lastInteraction := "2025-01-01T00:00:00.000Z".data,
    createdAt := "2025-01-01T00:00:00.000Z".data }

/-- Fixture: progress storage holding only the record of user 7. -/
def exProgressState : ProgressState :=
  { currentProgressId := 2, userProgressMap := [exProgress] }

/-- Fixture: empty progress storage. -/
def emptyProgressState : ProgressState :=
  { currentProgressId := 1, userProgressMap := [] }

/-! ### Geo cost grid (routes.ts generateStateMovingCosts, lines 573-692) -/

/-- One catalog city (routes.ts stateData): display name, code, longitude
and latitude (the source stores coordinates as [lon, lat]), base cost and
popularity. Coordinates are the exact decimal literals of the source, as
rationals. -/
structure CityData where
  state : List Char
  code : List Char
  lon : ℚ
  lat : ℚ
  baseCost : ℤ
  popularity : ℤ

/-- First catalog entry, also the fallback origin when no city matches. -/
def newYorkCity : CityData :=
  ⟨"New York, NY".data, "NY".data, -74.0060, 40.7128, 2500, 85⟩

/-- The 55-entry city catalog (routes.ts lines 575-631). -/
def stateData : List CityData :=
  newYorkCity ::
 [⟨"Los Angeles, CA".data, "CA".data, -118.2437, 34.0522, 2800, 90⟩,
  ⟨"Chicago, IL".data, "IL".data, -87.6298, 41.8781, 2200, 75⟩,
  ⟨"Houston, TX".data, "TX".data, -95.3698, 29.7604, 2100, 80⟩,
  ⟨"Phoenix, AZ".data, "AZ".data, -112.0740, 33.4484, 2000, 70⟩,
  ⟨"Philadelphia, PA".data, "PA".data, -75.1652, 39.9526, 2300, 65⟩,
  ⟨"San Antonio, TX".data, "TX2".data, -98.4936, 29.4241, 2050, 60⟩,
  ⟨"San Diego, CA".data, "CA2".data, -117.1611, 32.7157, 2700, 75⟩,
  ⟨"Dallas, TX".data, "TX3".data, -96.7970, 32.7767, 2150, 70⟩,
  ⟨"San Jose, CA".data, "CA3".data, -121.8863, 37.3382, 3000, 65⟩,
  ⟨"Austin, TX".data, "TX4".data, -97.7431, 30.2672, 2200, 85⟩,
  ⟨"Jacksonville, FL".data, "FL".data, -81.6557, 30.3322, 2150, 60⟩,
  ⟨"Columbus, OH".data, "OH".data, -82.9988, 39.9612, 1900, 55⟩,
  ⟨"Indianapolis, IN".data, "IN".data, -86.1581, 39.7684, 1850, 50⟩,
  ⟨"Charlotte, NC".data, "NC".data, -80.8431, 35.2271, 2050, 65⟩,
  ⟨"Seattle, WA".data, "WA".data, -122.3321, 47.6062, 2700, 75⟩,
  ⟨"Denver, CO".data, "CO".data, -104.9903, 39.7392, 2400, 75⟩,
  ⟨"Washington, DC".data, "DC".data, -77.0369, 38.9072, 2600, 70⟩,
  ⟨"Boston, MA".data, "MA".data, -71.0589, 42.3601, 2700, 65⟩,
  ⟨"Nashville, TN".data, "TN".data, -86.7816, 36.1627, 2050, 70⟩,
  ⟨"Atlanta, GA".data, "GA".data, -84.3880, 33.7490, 2150, 80⟩,
  ⟨"Miami, FL".data, "FL2".data, -80.1918, 25.7617, 2300, 85⟩,
  ⟨"Portland, OR".data, "OR".data, -122.6765, 45.5231, 2350, 65⟩,
  ⟨"Detroit, MI".data, "MI".data, -83.0458, 42.3314, 1900, 50⟩,
  ⟨"Minneapolis, MN".data, "MN".data, -93.2650, 44.9778, 2000, 55⟩,
  ⟨"Las Vegas, NV".data, "NV".data, -115.1398, 36.1699, 2200, 70⟩,
  ⟨"New Orleans, LA".data, "LA".data, -90.0715, 29.9511, 2100, 60⟩,
  ⟨"Cincinnati, OH".data, "OH2".data, -84.5120, 39.1031, 1850, 45⟩,
  ⟨"Kansas City, MO".data, "MO".data, -94.5786, 39.0997, 1900, 50⟩,
  ⟨"Salt Lake City, UT".data, "UT".data, -111.8910, 40.7608, 2050, 55⟩,
  ⟨"Pittsburgh, PA".data, "PA2".data, -79.9959, 40.4406, 2050, 50⟩,
  ⟨"Raleigh, NC".data, "NC2".data, -78.6382, 35.7796, 2100, 60⟩,
  ⟨"Baltimore, MD".data, "MD".data, -76.6122, 39.2904, 2200, 55⟩,
  ⟨"St. Louis, MO".data, "MO2".data, -90.1994, 38.6270, 1950, 45⟩,
  ⟨"Sacramento, CA".data, "CA4".data, -121.4944, 38.5816, 2400, 60⟩,
  ⟨"Tucson, AZ".data, "AZ2".data, -110.9747, 32.2226, 1950, 55⟩,
  ⟨"Omaha, NE".data, "NE".data, -95.9979, 41.2565, 1850, 45⟩,
  ⟨"Oklahoma City, OK".data, "OK".data, -97.5164, 35.4676, 1900, 50⟩,
  ⟨"Albuquerque, NM".data, "NM".data, -106.6504, 35.0844, 2000, 45⟩,
  ⟨"Memphis, TN".data, "TN2".data, -90.0490, 35.1495, 1950, 50⟩,
  ⟨"Louisville, KY".data, "KY".data, -85.7585, 38.2542, 1900, 45⟩,
  ⟨"Buffalo, NY".data, "NY2".data, -78.8784, 42.8864, 2100, 40⟩,
  ⟨"Richmond, VA".data, "VA".data, -77.4360, 37.5407, 2150, 50⟩,
  ⟨"Boise, ID".data, "ID".data, -116.2023, 43.6150, 2100, 55⟩,
  ⟨"Des Moines, IA".data, "IA".data, -93.6091, 41.5868, 1850, 40⟩,
  ⟨"Charleston, SC".data, "SC".data, -79.9311, 32.7765, 2150, 60⟩,
  ⟨"Jackson, MS".data, "MS".data, -90.1848, 32.2988, 1900, 40⟩,
  ⟨"Birmingham, AL".data, "AL".data, -86.8103, 33.5207, 1950, 45⟩,
  ⟨"Providence, RI".data, "RI".data, -71.4128, 41.8240, 2250, 50⟩,
  ⟨"Hartford, CT".data, "CT".data, -72.6830, 41.7658, 2300, 45⟩,
  ⟨"Concord, NH".data, "NH".data, -71.5372, 43.2081, 2200, 40⟩,
  ⟨"Burlington, VT".data, "VT".data, -73.2121, 44.4759, 2150, 40⟩,
  ⟨"Augusta, ME".data, "ME".data, -69.7795, 44.3106, 2250, 35⟩,
  ⟨"Honolulu, HI".data, "HI".data, -157.8583, 21.3069, 4500, 75⟩,
  ⟨"Anchorage, AK".data, "AK".data, -149.9003, 61.2181, 4000, 30⟩]

/-- Origin match (routes.ts line 634): the first catalog city whose name
contains the text before the first comma of the origin (no trim, no case
folding), falling back to the first entry. -/
def originCityFor (origin : List Char) : CityData :=
  (stateData.find? (fun city =>
    jsIncludes city.state ((jsSplit ',' origin).headD []))).getD newYorkCity

/-- Math.atan2 on the real model: the standard two-argument arctangent
(signed zeros are outside the model; the formula below only uses a
positive second argument). -/
noncomputable def atan2 (y x : ℝ) : ℝ :=
  if 0 < x then Real.arctan (y / x)
  else if x < 0 then
    (if 0 ≤ y then Real.arctan (y / x) + Real.pi
     else Real.arctan (y / x) - Real.pi)
  else if 0 < y then Real.pi / 2
  else if y < 0 then -(Real.pi / 2)
  else 0

/-- Embedding of calculateGeoDistance (routes.ts lines 681-692): the
Haversine great-circle distance in kilometers, over the reals. -/
noncomputable def calculateGeoDistance (lat1 lon1 lat2 lon2 : ℝ) : ℝ :=
  let R : ℝ := 6371
  let dLat := (lat2 - lat1) * (Real.pi / 180)
  let dLon := (lon2 - lon1) * (Real.pi / 180)
  let a := Real.sin (dLat / 2) * Real.sin (dLat / 2) +
    Real.cos (lat1 * (Real.pi / 180)) * Real.cos (lat2 * (Real.pi / 180)) *
    Real.sin (dLon / 2) * Real.sin (dLon / 2)
  let c := 2 * atan2 (Real.sqrt a) (Real.sqrt (1 - a))
  R * c

/-- JavaScript Math.round on the real model. -/
noncomputable def jsRoundR (x : ℝ) : ℤ := ⌊x + 1 / 2⌋

/-- Home-size multiplier of the grid (routes.ts lines 648-652). -/
def homeSizeMultiplier (homeSize : List Char) : ℚ :=
  if homeSize = "studio".data then 6 / 10
  else if homeSize = "1bedroom".data then 8 / 10
  else if homeSize = "2bedroom".data then 1
  else if homeSize = "3bedroom".data then 13 / 10
  else 15 / 10

/-- One row of the produced grid. -/
structure GridRow where
  state : List Char
  code : List Char
  lon : ℚ
  lat : ℚ
  hybridCost : ℤ
  diyCost : ℤ
  fullServiceCost : ℤ
  popularity : ℝ

/-- Row computation of the map body (routes.ts lines 637-677). -/
noncomputable def gridRow (originCity : CityData) (homeSize : List Char)
    (city : CityData) : GridRow :=
  let distance := calculateGeoDistance (originCity.lat : ℝ) (originCity.lon : ℝ)
    (city.lat : ℝ) (city.lon : ℝ)
  let baseCost : ℤ := jsRoundR ((city.baseCost : ℝ) *
    ((homeSizeMultiplier homeSize : ℚ) : ℝ))
  let distanceFactor := distance / 1000
  let hybridCost := jsRoundR ((baseCost : ℝ) * (1 + distanceFactor))
  let diyCost := jsRoundR ((hybridCost : ℝ) * (6 / 10))
  let fullServiceCost := jsRoundR ((hybridCost : ℝ) * (17 / 10))
  let popularity := max 20 ((city.popularity : ℝ) - distance / 500)
  { state := city.state, code := city.code, lon := city.lon, lat := city.lat,
    hybridCost := hybridCost, diyCost := diyCost,
    fullServiceCost := fullServiceCost, popularity := popularity }

/-- Embedding of generateStateMovingCosts (routes.ts lines 573-678). -/
noncomputable def generateStateMovingCosts (origin homeSize : List Char) :
    List GridRow :=
  stateData.map (gridRow (originCityFor origin) homeSize)

/-! ## Theorems -/

/-! ### Facts about the distance heuristic -/

/-- A nonempty list contains its getLastD. -/
theorem getLastD_mem_of_ne_nil {α : Type} (l : List α) (d : α) (h : l ≠ []) :
    l.getLastD d ∈ l := by
  cases l with
  | nil => exact absurd rfl h
  | cons a t =>
    rw [List.getLastD_cons]
    exact List.getLastD_mem_cons t a

/-- Key unreachability fact: if the two extracted states are equal and
nonempty, then that state is itself a trimmed lower-cased part of both
addresses, so the shared-part check fires. -/
theorem sameCityB_of_lastState_eq (origin destination : List Char)
    (heq : lastState origin = lastState destination)
    (hne : lastState origin ≠ []) :
    sameCityB origin destination = true := by
  have ho : lastState origin ∈ addressParts origin := by
    unfold lastState at hne ⊢
    by_cases h : (addressParts origin).length > 1
    · rw [if_pos h]
      refine getLastD_mem_of_ne_nil _ _ ?_
      intro hnil
      rw [hnil] at h
      simp at h
    · rw [if_neg h] at hne
      exact absurd rfl hne
  have hd : lastState origin ∈ addressParts destination := by
    rw [heq] at hne ⊢
    unfold lastState at hne ⊢
    by_cases h : (addressParts destination).length > 1
    · rw [if_pos h]
      refine getLastD_mem_of_ne_nil _ _ ?_
      intro hnil
      rw [hnil] at h
      simp at h
    · rw [if_neg h] at hne
      exact absurd rfl hne
  unfold sameCityB
  rw [List.any_eq_true]
  exact ⟨lastState origin, ho, by simpa [List.elem_iff] using hd⟩

/-- C2: for every random draw and every pair of addresses, the distance lies
in the range determined by the parse: a shared part gives a value in [5,25);
otherwise equal nonempty states give a value in [25,200); otherwise the
value is in [200,3000). The first clause holds for every draw, so repeated
calls on a same-city input always land in [5,25). -/
theorem calculateDistance_three_ranges (rand : ℕ → ℕ)
    (hrand : ∀ n, 0 < n → rand n < n) (origin destination : List Char) :
    (sameCityB origin destination = true →
      5 ≤ calculateDistance rand origin destination ∧
      calculateDistance rand origin destination < 25)
    ∧ (sameCityB origin destination = false →
      lastState origin = lastState destination → lastState origin ≠ [] →
      25 ≤ calculateDistance rand origin destination ∧
      calculateDistance rand origin destination < 200)
    ∧ (sameCityB origin destination = false →
      ¬(lastState origin = lastState destination ∧ lastState origin ≠ []) →
      200 ≤ calculateDistance rand origin destination ∧
      calculateDistance rand origin destination < 3000) := by
  refine ⟨?_, ?_, ?_⟩
  · intro h
    unfold calculateDistance
    rw [if_pos h]
    have := hrand 20 (by norm_num)
    omega
  · intro h heq hne
    unfold calculateDistance
    rw [if_neg (by simp [h]), if_pos ⟨heq, hne⟩]
    have := hrand 175 (by norm_num)
    omega
  · intro h hnot
    unfold calculateDistance
    rw [if_neg (by simp [h]), if_neg hnot]
    have := hrand 2800 (by norm_num)
    omega

/-- Witness for C2 at concrete inputs: the deterministic draw 0 on the
same-city pair from the spec example, and on a cross-country pair. -/
theorem calculateDistance_three_ranges_witness :
    (5 ≤ calculateDistance (fun _ => 0)
        "123 Main St, New York, NY".data "456 Oak Ave, New York, NY".data ∧
      calculateDistance (fun _ => 0)
        "123 Main St, New York, NY".data "456 Oak Ave, New York, NY".data < 25)
    ∧ (200 ≤ calculateDistance (fun _ => 0) "Boston, MA".data "Austin, TX".data ∧
      calculateDistance (fun _ => 0) "Boston, MA".data "Austin, TX".data < 3000) := by
  constructor
  · exact (calculateDistance_three_ranges (fun _ => 0) (fun n hn => hn)
      "123 Main St, New York, NY".data "456 Oak Ave, New York, NY".data).1
      (by decide)
  · exact (calculateDistance_three_ranges (fun _ => 0) (fun n hn => hn)
      "Boston, MA".data "Austin, TX".data).2.2 (by decide) (by decide)

/-- C10: the in-state branch is unreachable — whenever the two extracted
states are equal and nonempty the shared-part branch already fired — so no
result ever lies in [25,200): every result is in [5,25) or in [200,3000). -/
theorem calculateDistance_in_state_unreachable (rand : ℕ → ℕ)
    (hrand : ∀ n, 0 < n → rand n < n) (origin destination : List Char) :
    ¬(25 ≤ calculateDistance rand origin destination ∧
        calculateDistance rand origin destination < 200)
    ∧ ((5 ≤ calculateDistance rand origin destination ∧
          calculateDistance rand origin destination < 25)
      ∨ (200 ≤ calculateDistance rand origin destination ∧
          calculateDistance rand origin destination < 3000)) := by
  unfold calculateDistance
  by_cases hc : sameCityB origin destination = true
  · rw [if_pos hc]
    have := hrand 20 (by norm_num)
    exact ⟨by omega, Or.inl (by omega)⟩
  · rw [if_neg hc]
    have hnot : ¬(lastState origin = lastState destination ∧
        lastState origin ≠ []) := by
      rintro ⟨heq, hne⟩
      exact hc (sameCityB_of_lastState_eq origin destination heq hne)
    rw [if_neg hnot]
    have := hrand 2800 (by norm_num)
    exact ⟨by omega, Or.inr (by omega)⟩

/-- Witness for C10 at a concrete input: two addresses in the same state,
which nevertheless give a long-distance draw, under the deterministic
draw 0. -/
theorem calculateDistance_in_state_unreachable_witness :
    ¬(25 ≤ calculateDistance (fun _ => 0) "Dallas, TX".data "Austin, TX".data ∧
        calculateDistance (fun _ => 0) "Dallas, TX".data "Austin, TX".data < 200) := by
  exact (calculateDistance_in_state_unreachable (fun _ => 0) (fun n hn => hn)
    "Dallas, TX".data "Austin, TX".data).1

/-! ### C3: what the breakdown is computed from -/

/-- C3 counterexample: with services = [packing], the transportation share
is not 45 percent of the hybrid total returned in the same response — the
source computes the breakdown from the hybrid total before the services
surcharge is added. -/
theorem breakdown_not_from_response_hybrid :
    ¬((calculateMovingCosts (fun _ => 0) (fun _ => true)
        { origin := "123 Main St, New York, NY".data,
          destination := "456 Oak Ave, New York, NY".data,
          homeSize := .twoBedroom, additionalItems := .none,
          moveDate := "2025-06-01".data, flexibility := .exact,
          services := [.packing] }).breakdown.transportation
      = jsRound (((calculateMovingCosts (fun _ => 0) (fun _ => true)
          { origin := "123 Main St, New York, NY".data,
            destination := "456 Oak Ave, New York, NY".data,
            homeSize := .twoBedroom, additionalItems := .none,
            moveDate := "2025-06-01".data, flexibility := .exact,
            services := [.packing] }).costs.hybrid : ℚ) * (45 / 100))) := by
  simp only [calculateMovingCosts, calculateServicesCost, serviceTier,
    ADDITIONAL_ITEM_COSTS, List.foldl]
  intro h
  set x := jsRound ((BASE_COSTS HomeSize.twoBedroom).hybrid +
    (calculateDistance (fun _ => 0) "123 Main St, New York, NY".data
      "456 Oak Ave, New York, NY".data : ℚ) * COST_PER_MILE.hybrid) with hx
  have hr : jsRound (((x + 0 + (0 + 200) : ℤ) : ℚ) * (45 / 100))
      = jsRound (((x + 0 : ℤ) : ℚ) * (45 / 100)) + 90 := by
    unfold jsRound
    push_cast
    have : ((x : ℚ) + 0 + 200) * (45 / 100) + 1 / 2
        = ((x : ℚ) + 0) * (45 / 100) + 1 / 2 + (90 : ℤ) := by
      push_cast
      ring
    rw [this, Int.floor_add_int]
  rw [hr] at h
  omega

/-- C3 amended: each breakdown component equals the stated percentage of
the hybrid reference total — which is the returned hybrid cost minus the
services surcharge, i.e. the hybrid total before services are added. -/
theorem breakdown_from_pre_services_hybrid (rand : ℕ → ℕ) (avail : ℕ → Bool)
    (data : MoveRequest) :
    (calculateMovingCosts rand avail data).breakdown.transportation
      = jsRound ((((calculateMovingCosts rand avail data).costs.hybrid
          - (calculateServicesCost data.services).hybrid : ℤ) : ℚ) * (45 / 100))
    ∧ (calculateMovingCosts rand avail data).breakdown.labor
      = jsRound ((((calculateMovingCosts rand avail data).costs.hybrid
          - (calculateServicesCost data.services).hybrid : ℤ) : ℚ) * (30 / 100))
    ∧ (calculateMovingCosts rand avail data).breakdown.materials
      = jsRound ((((calculateMovingCosts rand avail data).costs.hybrid
          - (calculateServicesCost data.services).hybrid : ℤ) : ℚ) * (15 / 100))
    ∧ (calculateMovingCosts rand avail data).breakdown.other
      = jsRound ((((calculateMovingCosts rand avail data).costs.hybrid
          - (calculateServicesCost data.services).hybrid : ℤ) : ℚ) * (10 / 100)) := by
  refine ⟨?_, ?_, ?_, ?_⟩ <;>
  · simp only [calculateMovingCosts]
    congr 1
    push_cast
    ring

/-! ### Map update lemmas -/

/-- Replacing, by key, the entry a successful find? saw makes find? return
the replacement, provided the replacement still satisfies the predicate. -/
theorem find?_mapReplace_found {α : Type} (key : α → ℕ) (P : α → Bool)
    (u : α) (hu : P u = true) :
    ∀ (l : List α) (p : α), l.find? P = some p → key p = key u →
      (l.map (fun x => if key x = key u then u else x)).find? P = some u := by
  intro l
  induction l with
  | nil =>
    intro p hf _
    simp at hf
  | cons c t ih =>
    intro p hf hk
    by_cases hc : P c = true
    · rw [List.find?_cons_of_pos _ hc] at hf
      injection hf with hf
      subst hf
      simp only [List.map_cons, if_pos hk]
      exact List.find?_cons_of_pos _ hu
    · rw [List.find?_cons_of_neg _ hc] at hf
      by_cases hck : key c = key u
      · simp only [List.map_cons, if_pos hck]
        exact List.find?_cons_of_pos _ hu
      · simp only [List.map_cons, if_neg hck]
        rw [List.find?_cons_of_neg _ hc]
        exact ih p hf hk

/-- Replacing entries of one key leaves find? unchanged for a predicate
that rejects the replacement and everything sharing its key. -/
theorem find?_mapReplace_frame {α : Type} (key : α → ℕ) (P : α → Bool)
    (u : α) (hu : P u = false) (hkey : ∀ x, key x = key u → P x = false) :
    ∀ l : List α,
      (l.map (fun x => if key x = key u then u else x)).find? P = l.find? P := by
  intro l
  induction l with
  | nil => rfl
  | cons c t ih =>
    by_cases hck : key c = key u
    · have hc : P c = false := hkey c hck
      simp only [List.map_cons, if_pos hck]
      rw [List.find?_cons_of_neg _ (by simp [hu]),
        List.find?_cons_of_neg _ (by simp [hc])]
      exact ih
    · simp only [List.map_cons, if_neg hck]
      by_cases hc : P c = true
      · rw [List.find?_cons_of_pos _ hc, List.find?_cons_of_pos _ hc]
      · rw [List.find?_cons_of_neg _ hc, List.find?_cons_of_neg _ hc]
        exact ih

/-- Setting a record into a map where find? already succeeded on an entry
of the same key makes find? return the new record, provided it satisfies
the predicate. -/
theorem find?_mapSetBy_found {α : Type} (key : α → ℕ) (P : α → Bool)
    (u : α) (hu : P u = true) (l : List α) (p : α)
    (hf : l.find? P = some p) (hk : key p = key u) :
    (mapSetBy key l u).find? P = some u := by
  have hany : l.any (fun x => key x = key u) = true := by
    rw [List.any_eq_true]
    exact ⟨p, List.mem_of_find?_eq_some hf, by simp [hk]⟩
  rw [mapSetBy, if_pos hany]
  exact find?_mapReplace_found key P u hu l p hf hk

/-! ### C8: updateChecklistItem -/

/-- C8: updating a missing id returns none and leaves the map untouched;
updating a present id returns and stores exactly the found item with
completed replaced — id, checklist, task, description, category, timeframe
and creation time unchanged — and the stored entry of every other id is
untouched. -/
theorem updateChecklistItem_spec (items : List ChecklistItemR) (id : ℕ)
    (b : Bool) :
    (items.find? (fun i => i.id = id) = none →
      updateChecklistItem items id b = (none, items))
    ∧ (∀ item, items.find? (fun i => i.id = id) = some item →
      (updateChecklistItem items id b).1 = some { item with completed := b }
      ∧ ({ item with completed := b } : ChecklistItemR).id = item.id
      ∧ ({ item with completed := b } : ChecklistItemR).checklistId = item.checklistId
      ∧ ({ item with completed := b } : ChecklistItemR).task = item.task
      ∧ ({ item with completed := b } : ChecklistItemR).description = item.description
      ∧ ({ item with completed := b } : ChecklistItemR).category = item.category
      ∧ ({ item with completed := b } : ChecklistItemR).timeframe = item.timeframe
      ∧ ({ item with completed := b } : ChecklistItemR).createdAt = item.createdAt
      ∧ (updateChecklistItem items id b).2.find? (fun i => i.id = id)
          = some { item with completed := b }
      ∧ ∀ j, j ≠ id →
          (updateChecklistItem items id b).2.find? (fun i => i.id = j)
            = items.find? (fun i => i.id = j)) := by
  constructor
  · intro h
    unfold updateChecklistItem
    rw [h]
  · intro item hf
    have hid : item.id = id := by
      have := List.find?_some hf
      simpa using this
    have hmem : item ∈ items := List.mem_of_find?_eq_some hf
    have huid : ({ item with completed := b } : ChecklistItemR).id = id := hid
    have hany : items.any
        (fun x => x.id = ({ item with completed := b } : ChecklistItemR).id)
        = true := by
      rw [List.any_eq_true]
      exact ⟨item, hmem, by simp⟩
    have hsnd : (updateChecklistItem items id b).2
        = items.map (fun x =>
            if x.id = ({ item with completed := b } : ChecklistItemR).id
            then { item with completed := b } else x) := by
      unfold updateChecklistItem
      rw [hf]
      simp [mapSetBy, hany]
    refine ⟨?_, rfl, rfl, rfl, rfl, rfl, rfl, rfl, ?_, ?_⟩
    · unfold updateChecklistItem
      rw [hf]
    · rw [hsnd]
      exact find?_mapReplace_found (fun i => i.id) _
        { item with completed := b } (by simp [hid]) items item hf rfl
    · intro j hj
      rw [hsnd]
      refine find?_mapReplace_frame (fun i => i.id) _ _ ?_ ?_ items
      · simp only [huid]
        simp [hid]
        omega
      · intro x hx
        simp only [huid] at hx
        simp [hx, hid]
        omega

/-- Witness for C8 at the fixture map: id 2 is absent and the update
reports none without touching the map; id 1 is present and the update
returns the item with completed set. -/
theorem updateChecklistItem_spec_witness :
    (updateChecklistItem [exChecklistItem] 2 true = (none, [exChecklistItem]))
    ∧ ((updateChecklistItem [exChecklistItem] 1 true).1
        = some { exChecklistItem with completed := true }) := by
  constructor
  · exact (updateChecklistItem_spec [exChecklistItem] 2 true).1 rfl
  · exact ((updateChecklistItem_spec [exChecklistItem] 1 true).2
      exChecklistItem rfl).1

/-! ### C7: checklist template coverage -/

/-- C7: for every checklist id and move date the generator yields its one
fixed catalog: every one of the six timeframes is carried by at least one
item, every item carries one of the six timeframes, every item starts not
completed, and the list does not depend on the move date at all. -/
theorem generateDefaultChecklistItems_cover (checklistId : ℕ)
    (moveDate : List Char) :
    (sixTimeframes.all (fun t =>
        (generateDefaultChecklistItems checklistId moveDate).any
          (fun i => i.timeframe = t)) = true)
    ∧ ((generateDefaultChecklistItems checklistId moveDate).all
        (fun i => i.completed = false) = true)
    ∧ ((generateDefaultChecklistItems checklistId moveDate).all
        (fun i => sixTimeframes.contains i.timeframe) = true)
    ∧ generateDefaultChecklistItems checklistId moveDate
        = generateDefaultChecklistItems checklistId [] :=
  ⟨rfl, rfl, rfl, rfl⟩

/-! ### C1: authentication and ownership on the cited routes -/

/-- C1 counterexample: an unauthenticated caller of GET
/api/moving-estimates is answered ok with the estimate owned by user 1, and
user 2 successfully toggles the checklist item whose checklist is owned by
user 1 — neither operation is refused. -/
theorem estimates_auth_counterexample :
    apiMovingEstimates none exAppState = Reply.ok [exEstimate]
    ∧ exEstimate.userId = some 1
    ∧ (apiPatchChecklistItem (some 2) 1 (some true) exAppState).1
        = Reply.ok { exChecklistItem with completed := true }
    ∧ exChecklistItem.checklistId = exChecklist.id
    ∧ exChecklist.userId = 1 := by
  refine ⟨rfl, rfl, ?_, rfl, rfl⟩
  rfl

/-- C1 amended: GET /api/my-estimates refuses unauthenticated callers and
returns exactly the caller-owned estimates, and PATCH
/api/checklist-items/:id refuses unauthenticated callers; but GET
/api/moving-estimates answers every caller — authenticated or not — with
every stored estimate, and the item toggle behaves identically for every
authenticated caller id, with no ownership restriction. -/
theorem estimates_and_item_auth (auth : Option ℕ) (st : AppState)
    (uid uid2 itemId : ℕ) (b : Option Bool) :
    apiMovingEstimates auth st = Reply.ok st.estimates
    ∧ apiMyEstimates none st = Reply.unauthenticated
    ∧ apiMyEstimates (some uid) st
        = Reply.ok (st.estimates.filter (fun e => e.userId = some uid))
    ∧ apiPatchChecklistItem none itemId b st = (Reply.unauthenticated, st)
    ∧ apiPatchChecklistItem (some uid) itemId b st
        = apiPatchChecklistItem (some uid2) itemId b st :=
  ⟨rfl, rfl, rfl, rfl, rfl⟩

/-! ### C6: services dependence -/

/-- The services fold computes, in each tier, the sum of the per-service
surcharges over the list, occurrence by occurrence. -/
theorem calculateServicesCost_eq_sum (l : List Service) :
    calculateServicesCost l =
      ⟨(l.map (fun s => (serviceTier s).diy)).sum,
       (l.map (fun s => (serviceTier s).hybrid)).sum,
       (l.map (fun s => (serviceTier s).fullService)).sum⟩ := by
  have general : ∀ (l : List Service) (c : Tier),
      l.foldl (fun costs service =>
        (⟨costs.diy + (serviceTier service).diy,
          costs.hybrid + (serviceTier service).hybrid,
          costs.fullService + (serviceTier service).fullService⟩ : Tier)) c
      = ⟨c.diy + (l.map (fun s => (serviceTier s).diy)).sum,
         c.hybrid + (l.map (fun s => (serviceTier s).hybrid)).sum,
         c.fullService + (l.map (fun s => (serviceTier s).fullService)).sum⟩ := by
    intro l
    induction l with
    | nil => intro c; simp
    | cons s t ih =>
      intro c
      rw [List.foldl_cons, ih]
      simp [Tier.mk.injEq]
      refine ⟨by ring, by ring, by ring⟩
  rw [calculateServicesCost, general]
  simp

/-- Permuting the services list leaves the services surcharge unchanged. -/
theorem calculateServicesCost_perm {l l2 : List Service} (h : l.Perm l2) :
    calculateServicesCost l = calculateServicesCost l2 := by
  rw [calculateServicesCost_eq_sum, calculateServicesCost_eq_sum]
  have hd := (h.map (fun s => (serviceTier s).diy)).sum_eq
  have hh := (h.map (fun s => (serviceTier s).hybrid)).sum_eq
  have hf := (h.map (fun s => (serviceTier s).fullService)).sum_eq
  rw [hd, hh, hf]

/-- C6 amended: the whole response is invariant under permuting the
services list (order never matters), but duplicates do not collapse — see
the counterexample — because each occurrence adds its surcharge again. -/
theorem calculateMovingCosts_services_perm (rand : ℕ → ℕ) (avail : ℕ → Bool)
    (data : MoveRequest) (services : List Service)
    (h : services.Perm data.services) :
    calculateMovingCosts rand avail { data with services := services }
      = calculateMovingCosts rand avail data := by
  have hs : calculateServicesCost
      ({ data with services := services } : MoveRequest).services
      = calculateServicesCost data.services := calculateServicesCost_perm h
  simp only [calculateMovingCosts, hs]

/-- Witness for C6 at a concrete permutation: swapping the two services of
the fixture request leaves the response unchanged. -/
theorem calculateMovingCosts_services_perm_witness :
    calculateMovingCosts (fun _ => 0) (fun _ => true)
        { exRequest with services := [.storage, .packing] }
      = calculateMovingCosts (fun _ => 0) (fun _ => true) exRequest :=
  calculateMovingCosts_services_perm (fun _ => 0) (fun _ => true) exRequest
    [.storage, .packing] (List.Perm.swap Service.packing Service.storage [])

/-- C6 counterexample: adding a duplicate packing entry to a request that
already lists packing raises the diy total by another 100, so duplicates
do not collapse. -/
theorem services_duplicate_counterexample :
    ¬((calculateMovingCosts (fun _ => 0) (fun _ => true)
        { exRequest with services := [.packing] }).costs.diy
      = (calculateMovingCosts (fun _ => 0) (fun _ => true)
        { exRequest with services := [.packing, .packing] }).costs.diy) := by
  simp only [calculateMovingCosts, calculateServicesCost, List.foldl, serviceTier]
  intro h
  omega

/-! ### C4 and C5: unlock-achievement -/

/-- C4: unlocking an achievement the stored progress already holds is a
no-op — the state is returned untouched, and the reply signals already
unlocked and carries the unchanged record. -/
theorem unlockAchievement_already (st : ProgressState) (userId : ℕ)
    (achievementId : List Char) (points : Option ℤ) (now : List Char)
    (p : UserProgressR)
    (hid : achievementId ≠ [])
    (hp : getUserProgress st userId = some p)
    (hmem : p.achievements.contains achievementId = true) :
    unlockAchievement st userId achievementId points now
      = (UnlockResult.alreadyUnlocked p, st) := by
  unfold unlockAchievement
  rw [if_neg hid, hp]
  simp only [hmem, if_true]

/-- Witness for C4: repeating the unlock of first_estimate for user 7 on
the fixture store changes nothing and reports already unlocked. -/
theorem unlockAchievement_already_witness :
    unlockAchievement exProgressState 7 "first_estimate".data (some 15)
        "2025-02-02T00:00:00.000Z".data
      = (UnlockResult.alreadyUnlocked exProgress, exProgressState) :=
  unlockAchievement_already exProgressState 7 "first_estimate".data (some 15)
    "2025-02-02T00:00:00.000Z".data exProgress (by decide) rfl (by decide)

/-- Replacing, by key, in a map where no entry satisfied the predicate but
some entry shares the key, makes find? return the replacement, provided it
satisfies the predicate. -/
theorem find?_mapReplace_new {α : Type} (key : α → ℕ) (P : α → Bool)
    (u : α) (hu : P u = true) :
    ∀ l : List α, l.find? P = none → l.any (fun x => key x = key u) = true →
      (l.map (fun x => if key x = key u then u else x)).find? P = some u := by
  intro l
  induction l with
  | nil =>
    intro _ h
    simp at h
  | cons c t ih =>
    intro hn hany
    rw [List.find?_cons] at hn
    cases hc : P c with
    | true =>
      rw [hc] at hn
      simp at hn
    | false =>
      rw [hc] at hn
      by_cases hck : key c = key u
      · simp only [List.map_cons, if_pos hck]
        exact List.find?_cons_of_pos _ hu
      · simp only [List.map_cons, if_neg hck]
        rw [List.find?_cons_of_neg _ (by simp [hc])]
        refine ih hn ?_
        rw [List.any_cons] at hany
        simpa [hck] using hany

/-- Setting a fresh record into a map none of whose entries satisfied the
predicate makes find? return exactly that record, provided it satisfies the
predicate. -/
theorem find?_mapSetBy_new {α : Type} (key : α → ℕ) (P : α → Bool)
    (u : α) (hu : P u = true) :
    ∀ l : List α, l.find? P = none → (mapSetBy key l u).find? P = some u := by
  intro l hn
  by_cases hany : l.any (fun x => key x = key u) = true
  · rw [mapSetBy, if_pos hany]
    exact find?_mapReplace_new key P u hu l hn hany
  · rw [mapSetBy, if_neg hany, List.find?_append, hn]
    simp [hu]

/-- C5 counterexample: the first unlock of a fresh user with a 250-point
award stores and returns level 1 and points 250, yet
floor (250 / 100) + 1 = 3 — the lazy-creation path hardcodes level 1
instead of recomputing it from the awarded points. -/
theorem unlock_level_counterexample :
    (unlockAchievement emptyProgressState 7 "first_estimate".data (some 250)
        "2025-01-01T00:00:00.000Z".data).1
      = UnlockResult.unlocked
          { id := 1, userId := 7, points := 250, level := 1,
            achievements := ["first_estimate".data], streak := 0,
            lastInteraction := "2025-01-01T00:00:00.000Z".data,
            createdAt := "2025-01-01T00:00:00.000Z".data }
    ∧ Int.fdiv 250 100 + 1 = 3
    ∧ (1 : ℤ) ≠ 3 := by
  refine ⟨rfl, by decide, by decide⟩

/-- C5 amended: after a newly-unlocking invocation on an existing record
the returned and persisted progress satisfies
level = floor (points / 100) + 1; on the lazy-creation path of a first
unlock the record is created with the awarded points but with level
hardcoded to 1, which satisfies the formula exactly when the award lies in
[0, 100). -/
theorem unlockAchievement_level (st : ProgressState) (userId : ℕ)
    (achievementId : List Char) (points : Option ℤ) (now : List Char) :
    (∀ p, achievementId ≠ [] →
      getUserProgress st userId = some p →
      p.achievements.contains achievementId = false →
      ∃ r stAfter,
        unlockAchievement st userId achievementId points now
          = (UnlockResult.unlocked r, stAfter)
        ∧ r.level = Int.fdiv r.points 100 + 1
        ∧ r.points = p.points + points.getD 0
        ∧ getUserProgress stAfter userId = some r)
    ∧ (achievementId ≠ [] →
      getUserProgress st userId = none →
      ∃ r stAfter,
        unlockAchievement st userId achievementId points now
          = (UnlockResult.unlocked r, stAfter)
        ∧ r.level = 1
        ∧ r.points = points.getD 0
        ∧ getUserProgress stAfter userId = some r
        ∧ (0 ≤ points.getD 0 → points.getD 0 < 100 →
            r.level = Int.fdiv r.points 100 + 1)) := by
  constructor
  · intro p hid hp hmem
    have hpu : p.userId = userId := by
      have := List.find?_some hp
      simpa using this
    have hpmem : p ∈ st.userProgressMap := List.mem_of_find?_eq_some hp
    have heq : unlockAchievement st userId achievementId points now
        = (UnlockResult.unlocked
            { id := p.id, userId := p.userId,
              points := p.points + points.getD 0,
              level := Int.fdiv (p.points + points.getD 0) 100 + 1,
              streak := p.streak, lastInteraction := now,
              achievements := p.achievements ++ [achievementId],
              createdAt := p.createdAt },
           { st with
              userProgressMap := mapSetBy (fun q => q.id) st.userProgressMap
                  ({ id := p.id, userId := p.userId,
                     points := p.points + points.getD 0,
                     level := Int.fdiv (p.points + points.getD 0) 100 + 1,
                     streak := p.streak, lastInteraction := now,
                     achievements := p.achievements ++ [achievementId],
                     createdAt := p.createdAt } : UserProgressR) }) := by
      unfold unlockAchievement
      rw [if_neg hid, hp]
      simp only [hmem, Bool.false_eq_true, if_false]
      unfold updateUserProgress
      rw [show st.userProgressMap.find? (fun q => q.userId = userId)
          = some p from hp]
      rfl
    refine ⟨_, _, heq, rfl, rfl, ?_⟩
    simp only [getUserProgress]
    refine find?_mapSetBy_found (fun q => q.id) _ _ ?_
      st.userProgressMap p hp ?_
    · simp [hpu]
    · rfl
  · intro hid hp
    have heq : unlockAchievement st userId achievementId points now
        = (UnlockResult.unlocked
            { id := st.currentProgressId, userId := userId,
              points := points.getD 0, level := 1, streak := 0,
              lastInteraction := if now = [] then now else now,
              achievements := [achievementId],
              createdAt := now },
           { currentProgressId := st.currentProgressId + 1,
             userProgressMap := mapSetBy (fun q => q.id) st.userProgressMap
                 ({ id := st.currentProgressId, userId := userId,
                    points := points.getD 0, level := 1, streak := 0,
                    lastInteraction := if now = [] then now else now,
                    achievements := [achievementId],
                    createdAt := now } : UserProgressR) }) := by
      unfold unlockAchievement
      rw [if_neg hid, hp]
      rfl
    refine ⟨_, _, heq, rfl, rfl, ?_, ?_⟩
    · simp only [getUserProgress]
      refine find?_mapSetBy_new (fun q => q.id) _ _ ?_ st.userProgressMap hp
      simp
    · intro h0 h100
      have hz : Int.fdiv (points.getD 0) 100 = 0 := by
        rw [Int.fdiv_eq_ediv _ (by norm_num)]
        omega
      simp [hz]

/-- Witness for C5 on both paths: user 7 newly unlocks a second
achievement worth 95 points (15 + 95 = 110, level becomes
floor (110/100) + 1 = 2), and a fresh user 9 first-unlocks with a
50-point award (level stays 1 = floor (50/100) + 1). -/
theorem unlockAchievement_level_witness :
    (∃ r stAfter,
      unlockAchievement exProgressState 7 "book_mover".data (some 95)
          "2025-03-03T00:00:00.000Z".data
        = (UnlockResult.unlocked r, stAfter)
      ∧ r.level = Int.fdiv r.points 100 + 1
      ∧ r.points = exProgress.points + (some (95 : ℤ)).getD 0
      ∧ getUserProgress stAfter 7 = some r)
    ∧ (∃ r stAfter,
      unlockAchievement emptyProgressState 9 "first_estimate".data (some 50)
          "2025-03-03T00:00:00.000Z".data
        = (UnlockResult.unlocked r, stAfter)
      ∧ r.level = 1
      ∧ r.points = (some (50 : ℤ)).getD 0
      ∧ getUserProgress stAfter 9 = some r
      ∧ (0 ≤ ((some (50 : ℤ)).getD 0) → ((some (50 : ℤ)).getD 0) < 100 →
          r.level = Int.fdiv r.points 100 + 1)) := by
  constructor
  · exact (unlockAchievement_level exProgressState 7 "book_mover".data
      (some 95) "2025-03-03T00:00:00.000Z".data).1 exProgress
      (by decide) rfl (by decide)
  · exact (unlockAchievement_level emptyProgressState 9 "first_estimate".data
      (some 50) "2025-03-03T00:00:00.000Z".data).2 (by decide) rfl

/-! ### C9: the self-row of the cost grid -/

/-- Math.round of an integer value is that integer. -/
theorem jsRoundR_intCast (z : ℤ) : jsRoundR (z : ℝ) = z := by
  unfold jsRoundR
  rw [Int.floor_int_add]
  norm_num

/-- The Haversine distance from a point to itself is exactly zero. -/
theorem calculateGeoDistance_self (lat lon : ℝ) :
    calculateGeoDistance lat lon lat lon = 0 := by
  unfold calculateGeoDistance atan2
  simp [Real.sin_zero, Real.sqrt_zero, Real.sqrt_one, Real.arctan_zero]

/-- C9: when the origin matches a catalog city, the row the grid produces
for that same city uses self-distance zero — so the distance factor is
exactly one — and its hybrid cost is exactly the rounded product of the
catalog base cost and the home-size multiplier. -/
theorem costGrid_self_row (origin homeSize : List Char) (c : CityData)
    (hf : stateData.find? (fun city =>
        jsIncludes city.state ((jsSplit ',' origin).headD [])) = some c) :
    calculateGeoDistance (c.lat : ℝ) (c.lon : ℝ) (c.lat : ℝ) (c.lon : ℝ) = 0
    ∧ gridRow (originCityFor origin) homeSize c
        ∈ generateStateMovingCosts origin homeSize
    ∧ (gridRow (originCityFor origin) homeSize c).hybridCost
        = jsRoundR ((c.baseCost : ℝ) * ((homeSizeMultiplier homeSize : ℚ) : ℝ)) := by
  have hoc : originCityFor origin = c := by
    unfold originCityFor
    rw [hf]
    rfl
  refine ⟨calculateGeoDistance_self _ _, ?_, ?_⟩
  · unfold generateStateMovingCosts
    exact List.mem_map_of_mem _ (List.mem_of_find?_eq_some hf)
  · rw [hoc]
    unfold gridRow
    rw [calculateGeoDistance_self]
    simp [jsRoundR_intCast]

/-- Witness for C9: the origin New York, NY matches the first catalog
entry, whose own row carries the unmodified 2-bedroom base cost. -/
theorem costGrid_self_row_witness :
    calculateGeoDistance (newYorkCity.lat : ℝ) (newYorkCity.lon : ℝ)
        (newYorkCity.lat : ℝ) (newYorkCity.lon : ℝ) = 0
    ∧ gridRow (originCityFor "New York, NY".data) "2bedroom".data newYorkCity
        ∈ generateStateMovingCosts "New York, NY".data "2bedroom".data
    ∧ (gridRow (originCityFor "New York, NY".data) "2bedroom".data
        newYorkCity).hybridCost
        = jsRoundR ((newYorkCity.baseCost : ℝ) *
            ((homeSizeMultiplier "2bedroom".data : ℚ) : ℝ)) :=
  costGrid_self_row "New York, NY".data "2bedroom".data newYorkCity rfl
